import Mathlib

/-!
Shallow embedding of the GR GPIO controller model (src/hw/gpio/gr_gpio.c and
src/include/hw/gpio/gr_gpio.h).

The controller state is the pair of 32-bit registers `value` and `dir`
(`GRGPIOState.value`, `GRGPIOState.dir` in the C struct), modelled as `Nat`
with value ranges below `2 ^ 32` where the C type is `uint32_t`.  The
per-pin `qemu_set_irq` calls performed through `s->gpio_out[line]` and
`s->gpio_dir[line]` are modelled as elements of a notification list that
each operation returns alongside the post-state; the `qemu_log_mask`
guest-error diagnostic on the bad-offset paths is modelled as a `Bool`
flag in the result.  The bus layer restricts accesses to 4-byte words
(`impl.min_access_size = impl.max_access_size = 4`), so written words are
below `2 ^ 32`; theorems carry that bound as a hypothesis where needed.
-/

namespace GrGpio

/-- Macro GR_GPIO_PINS from gr_gpio.h: the loop bound used by the write path. -/
def GR_GPIO_PINS : Nat := 32

/-- Macro GR_GPIO_SIZE from gr_gpio.h: size of the MMIO window in bytes. -/
def GR_GPIO_SIZE : Nat := 0x100

/-- Macro GR_GPIO_REG_IN from gr_gpio.h. -/
def GR_GPIO_REG_IN : Nat := 0x000

/-- Macro GR_GPIO_REG_OUT from gr_gpio.h. -/
def GR_GPIO_REG_OUT : Nat := 0x004

/-- Macro GR_GPIO_REG_DIR from gr_gpio.h. -/
def GR_GPIO_REG_DIR : Nat := 0x008

/-- All-ones 32-bit word, 0xFFFFFFFF. -/
def mask32 : Nat := 2 ^ 32 - 1

/-- C bitwise complement `~m` evaluated in `uint32_t`. -/
def not32 (m : Nat) : Nat := mask32 ^^^ m

/-- The persistent register state of struct GRGPIOState: `uint32_t value`
and `uint32_t dir`. -/
structure GRGPIOState where
  value : Nat
  dir : Nat
deriving DecidableEq

/-- One `qemu_set_irq` event raised by the controller: `outLine pin level`
models `qemu_set_irq(s->gpio_out[pin], level)` and `dirLine pin level`
models `qemu_set_irq(s->gpio_dir[pin], level)`. -/
inductive Notif where
  | outLine (pin : Nat) (level : Nat)
  | dirLine (pin : Nat) (level : Nat)
deriving DecidableEq

/-- C function gr_gpio_OUT_set: raises the output-line irq of `line` with `value`. -/
def gr_gpio_OUT_set (line : Nat) (value : Nat) : Notif := .outLine line value

/-- C function gr_gpio_DIR_set: raises the direction-line irq of `line` with `value`. -/
def gr_gpio_DIR_set (line : Nat) (value : Nat) : Notif := .dirLine line value

/-- C function gr_gpio_IN_set (the qdev input-line handler): if the pin is
configured as input (`!(s->dir & (1 << line))`) it sets or clears bit
`line` of `s->value` according to `value`, otherwise it does nothing.  The
body contains no `qemu_set_irq` call, so the notification list is empty.
The C shift `1 << line` is undefined for `line >= 32`; the model extends
it mathematically as `1 <<< line`. -/
def gr_gpio_IN_set (s : GRGPIOState) (line : Nat) (value : Nat) :
    GRGPIOState × List Notif :=
  if s.dir &&& (1 <<< line) = 0 then
    if value ≠ 0 then ({ s with value := s.value ||| (1 <<< line) }, [])
    else ({ s with value := s.value &&& not32 (1 <<< line) }, [])
  else (s, [])

/-- C function gr_gpio_reset: zeroes both registers. -/
def gr_gpio_reset (_dev : GRGPIOState) : GRGPIOState := { value := 0, dir := 0 }

/-- Result of a bus read: post-state, raised irqs, whether the
LOG_GUEST_ERROR diagnostic was emitted, and the returned word. -/
structure ReadResult where
  state : GRGPIOState
  notifs : List Notif
  diag : Bool
  ret : Nat
deriving DecidableEq

/-- C function gr_gpio_read: IN and OUT both return `s->value`, DIR returns
`s->dir`; any other offset logs a guest-error diagnostic and returns the
initial `r = 0`.  The body never assigns to `s`, and never raises an irq. -/
def gr_gpio_read (s : GRGPIOState) (offset : Nat) : ReadResult :=
  if offset = GR_GPIO_REG_IN then ⟨s, [], false, s.value⟩
  else if offset = GR_GPIO_REG_OUT then ⟨s, [], false, s.value⟩
  else if offset = GR_GPIO_REG_DIR then ⟨s, [], false, s.dir⟩
  else ⟨s, [], true, 0⟩

/-- Result of a bus write: post-state, raised irqs, diagnostic flag. -/
structure WriteResult where
  state : GRGPIOState
  notifs : List Notif
  diag : Bool
deriving DecidableEq

/-- The loop body of the OUT-write case of gr_gpio_write: for each
`i < GR_GPIO_PINS` in ascending order, when `s->dir & pin_mask` is set and
`(oldvalue & pin_mask) ^ (value & pin_mask)` is nonzero it calls
`gr_gpio_OUT_set(opaque, i, (value & pin_mask) ? 1 : 0)`. -/
def outChanges (dir oldvalue w : Nat) : List Notif :=
  (List.range GR_GPIO_PINS).filterMap fun i =>
    let pin_mask := 1 <<< i
    if dir &&& pin_mask ≠ 0 then
      if (oldvalue &&& pin_mask) ^^^ (w &&& pin_mask) ≠ 0 then
        some (gr_gpio_OUT_set i (if w &&& pin_mask ≠ 0 then 1 else 0))
      else none
    else none

/-- The loop body of the DIR-write case of gr_gpio_write: for each
`i < GR_GPIO_PINS` in ascending order, when
`(oldvalue & pin_mask) ^ (value & pin_mask)` is nonzero it calls
`gr_gpio_DIR_set(opaque, i, (value & pin_mask) ? 1 : 0)`. -/
def dirChanges (olddir w : Nat) : List Notif :=
  (List.range GR_GPIO_PINS).filterMap fun i =>
    let pin_mask := 1 <<< i
    if (olddir &&& pin_mask) ^^^ (w &&& pin_mask) ≠ 0 then
      some (gr_gpio_DIR_set i (if w &&& pin_mask ≠ 0 then 1 else 0))
    else none

/-- C function gr_gpio_write.  The switch assigns `oldvalue = s->value` in
the OUT case and `oldvalue = s->dir` in the DIR case (and logs a
guest-error diagnostic in the default case); the two guarded blocks after
the switch then fire the per-pin change notifications and commit
`s->value = (s->value & ~(s->dir)) | (value & s->dir)` respectively
`s->dir = value`, but only when `oldvalue != value`.  `oldvalue` is read
only under the same offset guards that assign it, so the uninitialized
default-path `oldvalue` is never consumed. -/
def gr_gpio_write (s : GRGPIOState) (offset : Nat) (w : Nat) : WriteResult :=
  if offset = GR_GPIO_REG_IN then ⟨s, [], false⟩
  else if offset = GR_GPIO_REG_OUT then
    let oldvalue := s.value
    if oldvalue ≠ w then
      ⟨{ s with value := (s.value &&& not32 s.dir) ||| (w &&& s.dir) },
        outChanges s.dir oldvalue w, false⟩
    else ⟨s, [], false⟩
  else if offset = GR_GPIO_REG_DIR then
    let oldvalue := s.dir
    if oldvalue ≠ w then
      ⟨{ s with dir := w }, dirChanges oldvalue w, false⟩
    else ⟨s, [], false⟩
  else ⟨s, [], true⟩

/-- Spec-side restatement of §4.2 `on_out_write`, written from the spec's
words for comparison with the code: for each pin index `i` in
`0..pin_count` ascending, if `direction` bit `i` is output and
`prev_value` bit `i` differs from `new_value` bit `i`, emit one
output-line notification carrying the new boolean level of bit `i`. -/
def spec_on_out_write (pin_count prev_value new_value direction : Nat) :
    List Notif :=
  (List.range pin_count).filterMap fun i =>
    if direction.testBit i ∧ prev_value.testBit i ≠ new_value.testBit i then
      some (.outLine i (if new_value.testBit i then 1 else 0))
    else none

/-- Spec-side restatement of §4.2 `on_dir_write`, written from the spec's
words for comparison with the code: for each pin index `i` ascending, if
`prev_direction` bit `i` differs from `new_direction` bit `i`, emit one
direction-line notification carrying the new direction bit. -/
def spec_on_dir_write (pin_count prev_direction new_direction : Nat) :
    List Notif :=
  (List.range pin_count).filterMap fun i =>
    if prev_direction.testBit i ≠ new_direction.testBit i then
      some (.dirLine i (if new_direction.testBit i then 1 else 0))
    else none

/-- States reachable from reset by bus reads, 32-bit bus writes and input
stimuli on lines below `pin_count`, the external interactions the board
layer can perform on the controller. -/
inductive Reachable (pin_count : Nat) : GRGPIOState → Prop where
  | init : ∀ s0, Reachable pin_count (gr_gpio_reset s0)
  | writeStep : ∀ s offset w, w < 2 ^ 32 → Reachable pin_count s →
      Reachable pin_count (gr_gpio_write s offset w).state
  | readStep : ∀ s offset, Reachable pin_count s →
      Reachable pin_count (gr_gpio_read s offset).state
  | stimStep : ∀ s line lvl, line < pin_count → Reachable pin_count s →
      Reachable pin_count (gr_gpio_IN_set s line lvl).1

/-! Helper lemmas about the bit manipulations the code performs. -/

lemma one_shift_eq (i : Nat) : 1 <<< i = 2 ^ i := by
  rw [Nat.shiftLeft_eq, one_mul]

lemma and_two_pow_eq (x i : Nat) :
    x &&& 2 ^ i = if x.testBit i then 2 ^ i else 0 := by
  apply Nat.eq_of_testBit_eq
  intro j
  rcases eq_or_ne i j with hij | hij
  · subst hij
    by_cases h : x.testBit i <;> simp [h, Nat.testBit_two_pow_self]
  · by_cases h : x.testBit i <;> simp [h, Nat.testBit_two_pow_of_ne hij]

lemma and_shift_eq_zero_iff (x i : Nat) :
    x &&& (1 <<< i) = 0 ↔ x.testBit i = false := by
  rw [one_shift_eq, and_two_pow_eq]
  by_cases h : x.testBit i
  · simp [h, (Nat.two_pow_pos i).ne']
  · simp [h]

lemma and_shift_ne_zero_iff (x i : Nat) :
    x &&& (1 <<< i) ≠ 0 ↔ x.testBit i = true := by
  rw [Ne, and_shift_eq_zero_iff]
  simp

lemma xor_and_shift_ne_iff (x y i : Nat) :
    (x &&& (1 <<< i)) ^^^ (y &&& (1 <<< i)) ≠ 0 ↔ x.testBit i ≠ y.testBit i := by
  rw [Ne, Nat.xor_eq_zero, one_shift_eq, and_two_pow_eq, and_two_pow_eq]
  by_cases hx : x.testBit i <;> by_cases hy : y.testBit i <;>
    simp [hx, hy, (Nat.two_pow_pos i).ne', (Nat.two_pow_pos i).ne]

lemma testBit_mask32 (i : Nat) : mask32.testBit i = decide (i < 32) := by
  unfold mask32
  exact Nat.testBit_two_pow_sub_one 32 i

lemma testBit_not32 (m i : Nat) (hi : i < 32) :
    (not32 m).testBit i = ! m.testBit i := by
  unfold not32
  rw [Nat.testBit_xor, testBit_mask32]
  simp [hi]

lemma testBit_not32_ge (m i : Nat) (hi : 32 ≤ i) :
    (not32 m).testBit i = m.testBit i := by
  have h : ¬ i < 32 := by omega
  unfold not32
  rw [Nat.testBit_xor, testBit_mask32]
  simp [h]

lemma masked_update_testBit (v d w i : Nat) (hi : i < 32) :
    ((v &&& not32 d) ||| (w &&& d)).testBit i
      = if d.testBit i then w.testBit i else v.testBit i := by
  by_cases h : d.testBit i <;>
    simp [Nat.testBit_or, Nat.testBit_and, testBit_not32 d i hi, h]

lemma testBit_high_false {x i : Nat} (hx : x < 2 ^ 32) (hi : 32 ≤ i) :
    x.testBit i = false :=
  Nat.testBit_lt_two_pow
    (lt_of_lt_of_le hx (Nat.pow_le_pow_right (by norm_num) hi))

/-! Frame and range lemmas shared by the claim theorems. -/

lemma gr_gpio_read_frame (s : GRGPIOState) (offset : Nat) :
    (gr_gpio_read s offset).state = s ∧ (gr_gpio_read s offset).notifs = [] := by
  constructor <;> unfold gr_gpio_read <;> (repeat' split) <;> rfl

lemma gr_gpio_write_state_lt (s : GRGPIOState) (offset w : Nat)
    (hv : s.value < 2 ^ 32) (hd : s.dir < 2 ^ 32) (hw : w < 2 ^ 32) :
    (gr_gpio_write s offset w).state.value < 2 ^ 32
    ∧ (gr_gpio_write s offset w).state.dir < 2 ^ 32 := by
  unfold gr_gpio_write
  by_cases h0 : offset = GR_GPIO_REG_IN
  · simp [h0]; exact ⟨hv, hd⟩
  by_cases h4 : offset = GR_GPIO_REG_OUT
  · by_cases hvw : s.value ≠ w
    · simp [h0, h4, hvw]
      exact ⟨Nat.or_lt_two_pow (lt_of_le_of_lt Nat.and_le_left hv)
          (lt_of_le_of_lt Nat.and_le_left hw), hd⟩
    · simp [h0, h4, hvw]; exact ⟨hv, hd⟩
  by_cases h8 : offset = GR_GPIO_REG_DIR
  · by_cases hdw : s.dir ≠ w
    · simp [h0, h4, h8, hdw]; exact ⟨hv, hw⟩
    · simp [h0, h4, h8, hdw]; exact ⟨hv, hd⟩
  · simp [h0, h4, h8]; exact ⟨hv, hd⟩

lemma gr_gpio_IN_set_state_lt (s : GRGPIOState) (line lvl : Nat)
    (hline : line < 32) (hv : s.value < 2 ^ 32) (hd : s.dir < 2 ^ 32) :
    (gr_gpio_IN_set s line lvl).1.value < 2 ^ 32
    ∧ (gr_gpio_IN_set s line lvl).1.dir < 2 ^ 32 := by
  unfold gr_gpio_IN_set
  by_cases hin : s.dir &&& (1 <<< line) = 0
  · by_cases hlv : lvl ≠ 0
    · simp [hin, hlv]
      refine ⟨Nat.or_lt_two_pow hv ?_, hd⟩
      rw [one_shift_eq]
      exact Nat.pow_lt_pow_right (by norm_num) hline
    · simp [hin, hlv]
      exact ⟨lt_of_le_of_lt Nat.and_le_left hv, hd⟩
  · simp [hin]; exact ⟨hv, hd⟩

lemma reachable_bounds {pc : Nat} (hpc : pc ≤ 32) {s : GRGPIOState}
    (h : Reachable pc s) : s.value < 2 ^ 32 ∧ s.dir < 2 ^ 32 := by
  induction h with
  | init s0 =>
      refine ⟨?_, ?_⟩ <;> simp [gr_gpio_reset]
  | writeStep s off w hw hr ih => exact gr_gpio_write_state_lt s off w ih.1 ih.2 hw
  | readStep s off hr ih =>
      rw [(gr_gpio_read_frame s off).1]; exact ih
  | stimStep s line lvl hl hr ih =>
      exact gr_gpio_IN_set_state_lt s line lvl (by omega) ih.1 ih.2

lemma gr_gpio_write_out_state (s : GRGPIOState) (w : Nat) :
    (gr_gpio_write s GR_GPIO_REG_OUT w).state
      = if s.value ≠ w
          then { s with value := (s.value &&& not32 s.dir) ||| (w &&& s.dir) }
          else s := by
  by_cases hvw : s.value ≠ w <;>
    simp [hvw, gr_gpio_write, GR_GPIO_REG_IN, GR_GPIO_REG_OUT]

lemma gr_gpio_write_out_notifs (s : GRGPIOState) (w : Nat) :
    (gr_gpio_write s GR_GPIO_REG_OUT w).notifs
      = if s.value ≠ w then outChanges s.dir s.value w else [] := by
  by_cases hvw : s.value ≠ w <;>
    simp [hvw, gr_gpio_write, GR_GPIO_REG_IN, GR_GPIO_REG_OUT]

lemma gr_gpio_write_dir_state (s : GRGPIOState) (w : Nat) :
    (gr_gpio_write s GR_GPIO_REG_DIR w).state
      = if s.dir ≠ w then { s with dir := w } else s := by
  by_cases hdw : s.dir ≠ w <;>
    simp [hdw, gr_gpio_write, GR_GPIO_REG_IN, GR_GPIO_REG_OUT, GR_GPIO_REG_DIR]

lemma gr_gpio_write_dir_notifs (s : GRGPIOState) (w : Nat) :
    (gr_gpio_write s GR_GPIO_REG_DIR w).notifs
      = if s.dir ≠ w then dirChanges s.dir w else [] := by
  by_cases hdw : s.dir ≠ w <;>
    simp [hdw, gr_gpio_write, GR_GPIO_REG_IN, GR_GPIO_REG_OUT, GR_GPIO_REG_DIR]

lemma self_masked_or (v d : Nat) (hv : v < 2 ^ 32) :
    (v &&& not32 d) ||| (v &&& d) = v := by
  apply Nat.eq_of_testBit_eq
  intro i
  by_cases hi : i < 32
  · rw [masked_update_testBit v d v i hi]
    by_cases h : d.testBit i <;> simp [h]
  · have hge : 32 ≤ i := by omega
    simp [Nat.testBit_or, Nat.testBit_and, testBit_high_false hv hge]

lemma masked_commit_frame (v d w : Nat) (hd : d < 2 ^ 32) :
    ((v &&& not32 d) ||| (w &&& d)) &&& not32 d = v &&& not32 d := by
  apply Nat.eq_of_testBit_eq
  intro i
  by_cases hi : i < 32
  · rw [Nat.testBit_and, masked_update_testBit v d w i hi, Nat.testBit_and,
      testBit_not32 d i hi]
    by_cases h : d.testBit i <;> simp [h]
  · have hge : 32 ≤ i := by omega
    simp [Nat.testBit_and, testBit_not32_ge d i hge, testBit_high_false hd hge]

/-! Claim theorems. -/

/-- C1: for every controller state and every 32-bit written word `w`, a
write to the OUT register (offset 0x004) sets `value` to
`(value & ~direction) | (w & direction)` and leaves `direction` unchanged;
in particular every bit whose direction is input keeps its previous value:
`(value_after & ~direction) = (value_before & ~direction)`. -/
theorem out_write_masks_by_direction (s : GRGPIOState) (w : Nat)
    (hv : s.value < 2 ^ 32) (hd : s.dir < 2 ^ 32) (_hw : w < 2 ^ 32) :
    (gr_gpio_write s GR_GPIO_REG_OUT w).state.value
        = (s.value &&& not32 s.dir) ||| (w &&& s.dir)
    ∧ (gr_gpio_write s GR_GPIO_REG_OUT w).state.dir = s.dir
    ∧ ((gr_gpio_write s GR_GPIO_REG_OUT w).state.value &&& not32 s.dir)
        = s.value &&& not32 s.dir := by
  rw [gr_gpio_write_out_state]
  by_cases hvw : s.value ≠ w
  · rw [if_pos hvw]
    exact ⟨rfl, rfl, masked_commit_frame s.value s.dir w hd⟩
  · rw [if_neg hvw]
    push_neg at hvw
    refine ⟨?_, rfl, rfl⟩
    rw [← hvw]
    exact (self_masked_or s.value s.dir hv).symm

/-- Witness for C1 at state value=5, dir=3 and word w=6: apply the theorem
and read off a concrete consequence. -/
theorem out_write_masks_by_direction_holds :
    (gr_gpio_write { value := 5, dir := 3 } GR_GPIO_REG_OUT 6).state.value
      = ((5 &&& not32 3) ||| (6 &&& 3)) := by
  have h := out_write_masks_by_direction { value := 5, dir := 3 } 6
    (by decide) (by decide) (by decide)
  exact h.1

/-- C5: a read or write at an offset inside the 0x100-byte window but
outside {0x000, 0x004, 0x008} raises the guest-error diagnostic, returns 0
on read, discards the written word, leaves the state completely unchanged
and emits no notification. -/
theorem invalid_offset_is_diagnosed_noop (s : GRGPIOState) (offset w : Nat)
    (_hsz : offset < GR_GPIO_SIZE)
    (h0 : offset ≠ GR_GPIO_REG_IN) (h4 : offset ≠ GR_GPIO_REG_OUT)
    (h8 : offset ≠ GR_GPIO_REG_DIR) :
    gr_gpio_read s offset = ⟨s, [], true, 0⟩
    ∧ gr_gpio_write s offset w = ⟨s, [], true⟩ := by
  unfold gr_gpio_read gr_gpio_write
  simp [h0, h4, h8]

/-- Witness for C5 at offset 0x00C. -/
theorem invalid_offset_is_diagnosed_noop_holds :
    gr_gpio_read { value := 5, dir := 3 } 0x00C
        = ⟨{ value := 5, dir := 3 }, [], true, 0⟩
    ∧ gr_gpio_write { value := 5, dir := 3 } 0x00C 7
        = ⟨{ value := 5, dir := 3 }, [], true⟩ :=
  invalid_offset_is_diagnosed_noop { value := 5, dir := 3 } 0x00C 7
    (by decide) (by decide) (by decide) (by decide)

/-- C8: a write to the DIR register replaces `direction` by the written
word verbatim (no masking) and never changes `value`; in particular a pin
moved from output to input retains its last output-driven value bit. -/
theorem dir_write_verbatim_keeps_value (s : GRGPIOState) (w : Nat) :
    (gr_gpio_write s GR_GPIO_REG_DIR w).state.dir = w
    ∧ (gr_gpio_write s GR_GPIO_REG_DIR w).state.value = s.value := by
  rw [gr_gpio_write_dir_state]
  by_cases hdw : s.dir ≠ w
  · rw [if_pos hdw]
    exact ⟨rfl, rfl⟩
  · rw [if_neg hdw]
    push_neg at hdw
    exact ⟨hdw, rfl⟩

/-- C9: reading the IN register (offset 0x000) and reading the OUT
register (offset 0x004) return the same word in every state — both return
the composite `value` field; a fortiori this holds in every state
reachable by OUT/DIR writes and input stimuli for any pin count. -/
theorem read_in_eq_read_out (s : GRGPIOState) :
    (gr_gpio_read s GR_GPIO_REG_IN).ret
      = (gr_gpio_read s GR_GPIO_REG_OUT).ret := rfl

/-- C10: a register read at any offset, valid or invalid, leaves the state
exactly as it was and fires no notification; the returned word is a
function of the state and offset by construction. -/
theorem read_is_side_effect_free (s : GRGPIOState) (offset : Nat) :
    (gr_gpio_read s offset).state = s ∧ (gr_gpio_read s offset).notifs = [] :=
  gr_gpio_read_frame s offset

/-- C4: for every pin `line < 32` and level: if the pin's direction bit is
input, a stimulus sets bit `line` of `value` to the level, changes no other
bit, leaves `direction` unchanged and emits no notification; if the pin is
output, the stimulus changes nothing and emits no notification. -/
theorem input_stimulus_semantics (s : GRGPIOState) (line level : Nat)
    (hline : line < GR_GPIO_PINS) (hv : s.value < 2 ^ 32) :
    (s.dir.testBit line = false →
        ((gr_gpio_IN_set s line level).1.value.testBit line = true ↔ level ≠ 0)
        ∧ (∀ j, j ≠ line →
            (gr_gpio_IN_set s line level).1.value.testBit j = s.value.testBit j)
        ∧ (gr_gpio_IN_set s line level).1.dir = s.dir
        ∧ (gr_gpio_IN_set s line level).2 = [])
    ∧ (s.dir.testBit line = true →
        (gr_gpio_IN_set s line level).1 = s
        ∧ (gr_gpio_IN_set s line level).2 = []) := by
  have hl32 : line < 32 := hline
  unfold gr_gpio_IN_set
  constructor
  · intro hdir
    have hin : s.dir &&& (1 <<< line) = 0 :=
      (and_shift_eq_zero_iff s.dir line).mpr hdir
    rw [if_pos hin]
    by_cases hlv : level ≠ 0
    · rw [if_pos hlv]
      refine ⟨?_, ?_, rfl, rfl⟩
      · simp [hlv, Nat.testBit_or, one_shift_eq, Nat.testBit_two_pow_self]
      · intro j hj
        simp [Nat.testBit_or, one_shift_eq,
          Nat.testBit_two_pow_of_ne (Ne.symm hj)]
    · rw [if_neg hlv]
      refine ⟨?_, ?_, rfl, rfl⟩
      · simp only [Nat.testBit_and, one_shift_eq, testBit_not32 _ line hl32,
          Nat.testBit_two_pow_self]
        simp [hlv]
      · intro j hj
        by_cases hj32 : j < 32
        · simp [Nat.testBit_and, one_shift_eq, testBit_not32 _ j hj32,
            Nat.testBit_two_pow_of_ne (Ne.symm hj)]
        · have hge : 32 ≤ j := by omega
          simp [Nat.testBit_and, testBit_high_false hv hge]
  · intro hdir
    have hin : ¬ s.dir &&& (1 <<< line) = 0 := by
      rw [and_shift_eq_zero_iff]
      simp [hdir]
    rw [if_neg hin]
    exact ⟨rfl, rfl⟩

/-- Witness for C4 at state value=0, dir=2, stimulating input pin 0 with
level 1: bit 0 of value becomes 1. -/
theorem input_stimulus_semantics_holds :
    (gr_gpio_IN_set { value := 0, dir := 2 } 0 1).1.value.testBit 0 = true := by
  have h := input_stimulus_semantics { value := 0, dir := 2 } 0 1
    (by decide) (by decide)
  exact ((h.1 (by decide)).1).mpr (by decide)

/-- C2: a write to the OUT register emits exactly the output-line
notifications prescribed by the spec's `on_out_write`: one per pin index in
ascending order, for exactly the pins whose direction bit is output and
whose value bit differs between the pre-write and post-write snapshot,
carrying the new boolean level of that bit; input pins and unchanged pins
get none. -/
theorem out_write_notifies_changed_output_pins (s : GRGPIOState) (w : Nat) :
    (gr_gpio_write s GR_GPIO_REG_OUT w).notifs
      = spec_on_out_write GR_GPIO_PINS s.value
          (gr_gpio_write s GR_GPIO_REG_OUT w).state.value s.dir := by
  rw [gr_gpio_write_out_notifs, gr_gpio_write_out_state]
  by_cases hvw : s.value ≠ w
  · rw [if_pos hvw, if_pos hvw]
    unfold outChanges spec_on_out_write
    apply List.filterMap_congr
    intro i hi
    have hi32 : i < 32 := by
      have := List.mem_range.mp hi
      simpa [GR_GPIO_PINS] using this
    by_cases hd : s.dir.testBit i <;> by_cases hvb : s.value.testBit i <;>
      by_cases hwb : w.testBit i <;>
        simp [gr_gpio_OUT_set, one_shift_eq, and_two_pow_eq,
          masked_update_testBit s.value s.dir w i hi32, hd, hvb, hwb,
          (Nat.two_pow_pos i).ne', (Nat.two_pow_pos i).ne]
  · rw [if_neg hvw, if_neg hvw]
    unfold spec_on_out_write
    symm
    rw [List.filterMap_eq_nil_iff]
    intro i hi
    simp

/-- C3: a write to the DIR register emits exactly the direction-line
notifications prescribed by the spec's `on_dir_write`: one per pin index in
ascending order, for exactly the pins whose direction bit differs between
the old and new direction word, carrying the new direction bit; unchanged
pins get none. -/
theorem dir_write_notifies_changed_pins (s : GRGPIOState) (w : Nat) :
    (gr_gpio_write s GR_GPIO_REG_DIR w).notifs
      = spec_on_dir_write GR_GPIO_PINS s.dir
          (gr_gpio_write s GR_GPIO_REG_DIR w).state.dir := by
  rw [gr_gpio_write_dir_notifs, gr_gpio_write_dir_state]
  by_cases hdw : s.dir ≠ w
  · rw [if_pos hdw, if_pos hdw]
    unfold dirChanges spec_on_dir_write
    apply List.filterMap_congr
    intro i hi
    by_cases hd : s.dir.testBit i <;> by_cases hwb : w.testBit i <;>
      simp [gr_gpio_DIR_set, one_shift_eq, and_two_pow_eq, hd, hwb,
        (Nat.two_pow_pos i).ne', (Nat.two_pow_pos i).ne]
  · rw [if_neg hdw, if_neg hdw]
    unfold spec_on_dir_write
    symm
    rw [List.filterMap_eq_nil_iff]
    intro i hi
    simp

/-- C6 (code at the failing input): gr_gpio_IN_set contains no bounds
check on `line`; on a freshly reset controller a stimulus for pin 32 with
level 1 is treated as an input-pin update (`dir & (1 << 32)` is 0) and
sets bit 32 of `value`, corrupting the 32-bit field instead of being
rejected.  In C the shift `1 << 32` is itself undefined behavior. -/
theorem in_stimulus_out_of_range_corrupts :
    (gr_gpio_IN_set { value := 0, dir := 0 } 32 1).1.value = 2 ^ 32 := by
  decide

/-- C7 (counterexample): the invariant "bits at index ≥ pin_count of value
and direction are 0 in every reachable state" fails for pin_count = 8: a
single DIR write of 0x100 from reset makes direction bit 8 equal 1,
because the DIR write path stores the word verbatim without masking by the
configured pin count. -/
theorem bits_beyond_pin_count_not_invariant :
    ¬ (∀ pc : Nat, 1 ≤ pc → pc ≤ 32 → ∀ s : GRGPIOState, Reachable pc s →
        ∀ i : Nat, pc ≤ i →
          s.value.testBit i = false ∧ s.dir.testBit i = false) := by
  intro h
  have hr : Reachable 8
      (gr_gpio_write (gr_gpio_reset { value := 0, dir := 0 })
        GR_GPIO_REG_DIR 0x100).state :=
    Reachable.writeStep _ _ _ (by norm_num)
      (Reachable.init { value := 0, dir := 0 })
  have h8 := h 8 (by norm_num) (by norm_num) _ hr 8 (le_refl 8)
  exact absurd h8.2 (by decide)

/-- C7 (amended): for the pin count 32 that the register logic is
hard-wired to (GR_GPIO_PINS; the ngpio property is never consulted by the
read/write paths), every state reachable from reset by reads, 32-bit
writes and in-range stimuli has all bits of value and direction at index
≥ 32 equal 0, and every register read returns a word whose bits at index
≥ 32 are 0. -/
theorem bits_beyond_32_always_zero (s : GRGPIOState) (h : Reachable 32 s)
    (i : Nat) (hi : 32 ≤ i) :
    s.value.testBit i = false ∧ s.dir.testBit i = false
    ∧ ∀ offset, (gr_gpio_read s offset).ret.testBit i = false := by
  obtain ⟨hv, hd⟩ := reachable_bounds (le_refl 32) h
  refine ⟨testBit_high_false hv hi, testBit_high_false hd hi, ?_⟩
  intro offset
  unfold gr_gpio_read
  by_cases h0 : offset = GR_GPIO_REG_IN
  · simp [h0, GR_GPIO_REG_IN, GR_GPIO_REG_OUT, GR_GPIO_REG_DIR,
      testBit_high_false hv hi]
  by_cases h4 : offset = GR_GPIO_REG_OUT
  · simp [h4, GR_GPIO_REG_IN, GR_GPIO_REG_OUT, GR_GPIO_REG_DIR,
      testBit_high_false hv hi]
  by_cases h8 : offset = GR_GPIO_REG_DIR
  · simp [h8, GR_GPIO_REG_IN, GR_GPIO_REG_OUT, GR_GPIO_REG_DIR,
      testBit_high_false hd hi]
  · simp [h0, h4, h8]

/-- Witness for the amended C7 at the reset state and bit 32. -/
theorem bits_beyond_32_always_zero_holds :
    (gr_gpio_reset { value := 0, dir := 0 }).value.testBit 32 = false := by
  have h := bits_beyond_32_always_zero (gr_gpio_reset { value := 0, dir := 0 })
    (Reachable.init { value := 0, dir := 0 }) 32 (le_refl 32)
  exact h.1

end GrGpio
